import Mathlib

/-!
Verification of the trading-engine repository (`app/trade_engine.py`,
`app/redis_store.py`, `app/chartink_client.py`) against its specification.

The Python code is shallowly embedded: prices (Python floats) are modelled
as rationals, strings of the normalisation layer as lists of Unicode code
points, Redis keys as explicit boolean/optional state fields, and broker
calls as an explicit success/failure outcome parameter.
-/

namespace AlgoEngine

/-! ## Data model (`app/trade_engine.py`) -/

/-- Order side, `Side = Literal["BUY", "SELL"]`. -/
inductive Side where
  | BUY
  | SELL
deriving DecidableEq, Repr

/-- Product type, `Product = Literal["MIS", "CNC"]`. -/
inductive Product where
  | MIS
  | CNC
deriving DecidableEq, Repr

/-- Position status,
`Literal["OPEN", "EXIT_CONDITIONS_MET", "EXITING", "CLOSED", "REJECTED", "ERROR"]`. -/
inductive PStatus where
  | OPEN
  | EXIT_CONDITIONS_MET
  | EXITING
  | CLOSED
  | REJECTED
  | ERROR
deriving DecidableEq, Repr

/-- The fields of the `Position` dataclass needed by the monitored claims.
Defaults mirror the dataclass defaults (`0.0` / `""` / `"OPEN"`). -/
structure Position where
  side : Side
  product : Product
  qty : Int
  entry_price : ℚ
  entry_order_id : String := ""
  target_price : ℚ := 0
  sl_price : ℚ := 0
  tsl_pct : ℚ := 0
  highest : ℚ := 0
  lowest : ℚ := 0
  status : PStatus := .OPEN
  exit_reason : String := ""
  exit_order_id : String := ""
  ltp : ℚ := 0
  pnl : ℚ := 0
deriving DecidableEq, Repr

/-- Outcome of a broker order submission: `ok oid` when
`kite.place_order` returns an order id, `err msg` when it raises. -/
inductive BrokerResult where
  | ok (oid : String)
  | err (msg : String)
deriving DecidableEq, Repr

/-! ## Redis lock and counter scripts (`app/redis_store.py`) -/

/-- `LUA_LOCK`: checks the kill key, then the lock key, else sets the lock
key with the requested TTL (`PSETEX`).  The lock key is modelled as
`Option Nat`: `some ttl` when the key exists with that TTL.  Returns the
script result together with the new lock-key state. -/
def lua_lock (killKey : Bool) (lockKey : Option Nat) (ttl_ms : Nat) :
    Int × Option Nat :=
  if killKey then (-2, lockKey)
  else if lockKey.isSome then (0, lockKey)
  else (1, some ttl_ms)

/-- `LUA_TRADE_LIMIT`: per-alert daily counter.  `cur` is the current
counter value (absent key reads as `0`).  Returns whether the trade is
allowed together with the new counter value; the counter is incremented
exactly when the limit is positive and not yet reached. -/
def lua_trade_limit (limit : Int) (cur : Nat) : Bool × Nat :=
  if limit ≤ 0 then (true, cur)
  else if limit ≤ (cur : Int) then (false, cur)
  else (true, cur + 1)

/-- `TradeEngine._try_enter`, line 904: reason shown when the entry lock
is not acquired (`lk ≠ 1`): `"KILL" if lk == -2 else "ENTRY_LOCK_BUSY"`. -/
def entryLockFailReason (lk : Int) : String :=
  if lk = -2 then "KILL" else "ENTRY_LOCK_BUSY"

/-! ## Quantity computation (`TradeEngine._calc_qty`, entry quantity step) -/

/-- `AlertConfig.qty_mode`: `"QTY"` (fixed quantity) or `"CAPITAL"`. -/
inductive QtyMode where
  | QTY
  | CAPITAL
deriving DecidableEq, Repr

/-- The `AlertConfig` fields used by quantity computation. -/
structure AlertConfig where
  qty_mode : QtyMode
  qty : Int
  capital : ℚ
deriving DecidableEq, Repr

/-- `TradeEngine._calc_qty`: fixed-qty mode returns `max(1, int(cfg.qty))`;
capital mode returns `0` for non-positive `ltp` and otherwise
`max(1, int(capital // ltp))` (Python float floor-division). -/
def calc_qty (cfg : AlertConfig) (ltp : ℚ) : Int :=
  match cfg.qty_mode with
  | .QTY => max 1 cfg.qty
  | .CAPITAL => if ltp ≤ 0 then 0 else max 1 ⌊cfg.capital / ltp⌋

/-- The quantity actually computed at the entry-path quantity step
(`_try_enter`): `self._calc_qty(cfg, ltp if ltp > 0 else 1.0)`. -/
def entryQty (cfg : AlertConfig) (ltp : ℚ) : Int :=
  calc_qty cfg (if 0 < ltp then ltp else 1)

/-- The `BAD_QTY` rejection branch of `_try_enter`:
`if qty <= 0: return REJECTED, BAD_QTY`. -/
def entryQtyReject (cfg : AlertConfig) (ltp : ℚ) : Option String :=
  if entryQty cfg ltp ≤ 0 then some "BAD_QTY" else none

/-! ## In-memory duplicate guard (`_try_enter`, lines 894-896) -/

/-- A small entry-attempt result record (`status`/`reason` of the dicts
returned by `_try_enter`). -/
structure EntryResult where
  status : String
  reason : String
deriving DecidableEq, Repr

/-- `if symbol in self.positions and self.positions[symbol].status in
("OPEN", "EXITING")`: the in-memory duplicate check. -/
def memDupActive (s : PStatus) : Bool :=
  s = PStatus.OPEN ∨ s = PStatus.EXITING

/-- The in-memory duplicate guard step of `_try_enter`: given the stored
position for the symbol (if any), returns the early rejection it produces,
if it fires. -/
def tryEnterMemGuard (stored : Option Position) : Option EntryResult :=
  match stored with
  | some p =>
      if memDupActive p.status then some ⟨"SKIPPED", "ALREADY_OPEN"⟩ else none
  | none => none

/-! ## Entry placement tail (`_try_enter` from `allow_trade` onwards,
together with `_place_order`'s kill-switch trigger) -/

/-- Engine/Redis state visible to the entry placement tail:
the user's kill key, the `trade:open:{user}:{symbol}` open-guard key,
the in-memory position stored for the symbol, and the per-alert daily
counter value. -/
structure EntrySt where
  kill : Bool
  openGuard : Bool
  storedPos : Option Position
  count : Nat
deriving DecidableEq, Repr

/-- The tail of `_try_enter` for a fixed symbol, starting at the
`allow_trade` call: increments the daily counter via `LUA_TRADE_LIMIT`,
then places the order.  `_place_order` sets the kill key and re-raises on
any broker exception; `_try_enter` catches it and returns `ERROR` with the
message.  On success it marks the open-guard (`mark_open`), stores the
`OPEN` position in memory and returns `ENTERED`. -/
def entryPlaceAndStore (br : BrokerResult) (limit : Int) (pos : Position)
    (st : EntrySt) : EntryResult × EntrySt :=
  let allowed := (lua_trade_limit limit st.count).1
  let st1 : EntrySt := { st with count := (lua_trade_limit limit st.count).2 }
  if !allowed then (⟨"SKIPPED", "TRADE_LIMIT"⟩, st1)
  else
    match br with
    | .err e => (⟨"ERROR", e⟩, { st1 with kill := true })
    | .ok oid =>
        (⟨"ENTERED", ""⟩,
          { st1 with
            openGuard := true
            storedPos := some { pos with status := .OPEN, entry_order_id := oid } })

/-! ## Exit path (`TradeEngine._exit_position`) -/

/-- Engine/Redis state visible to `_exit_position` for a fixed symbol:
the position (if still in memory), the kill key, the open-guard key, the
exit lock key, the two in-flight flags, and whether the position snapshot
was deleted. -/
structure ExitSt where
  pos : Position
  kill : Bool
  openGuard : Bool
  exitLock : Bool
  exitInflight : Bool
  exitSignaled : Bool
  posDeleted : Bool := false
deriving DecidableEq, Repr

/-- `TradeEngine._exit_position`: guards on the position status, acquires
the exit lock via `LUA_LOCK` (which fails with `-2` when the kill key is
set and `0` when the lock key exists), marks the position `EXITING`,
places the exit order through `_place_order` (which sets the kill key and
re-raises on failure), and then:
on success sets `CLOSED`, deletes the position;
on failure sets `ERROR` with `exit_reason = "EXIT_ORDER_FAIL:<msg>"`.
The inner `finally` clears the open-guard in both cases, the lock is
released, and the outer `finally` resets both in-flight flags. -/
def exit_position (br : BrokerResult) (reason : String) (st : ExitSt) : ExitSt :=
  let st' :=
    if st.pos.status ≠ .OPEN ∧ st.pos.status ≠ .EXITING ∧
        st.pos.status ≠ .EXIT_CONDITIONS_MET then st
    else if st.kill then st
    else if st.exitLock then st
    else
      let p1 := { st.pos with status := PStatus.EXITING, exit_reason := reason }
      let st2 :=
        match br with
        | .ok oid =>
            { st with
              pos := { p1 with status := .CLOSED, exit_order_id := oid }
              posDeleted := true
              openGuard := false }
        | .err e =>
            { st with
              pos := { p1 with status := .ERROR,
                                exit_reason := "EXIT_ORDER_FAIL:" ++ e }
              kill := true
              openGuard := false }
      { st2 with exitLock := false }
  { st' with exitInflight := false, exitSignaled := false }

/-! ## Bulk square-off (`TradeEngine.exit_all_open_positions`) -/

/-- `exit_all_open_positions`: snapshots the symbols whose in-memory
position status is `OPEN`; returns `0` if there are none; returns `0`
without spawning anything if the kill key is set; otherwise spawns one
`_exit_position` task per symbol and returns their count.  The result is
the returned count together with the list of symbols for which an exit
task was spawned. -/
def exit_all_open_positions (positions : List (String × PStatus))
    (kill : Bool) : Nat × List String :=
  let symbols := (positions.filter (fun sp => sp.2 = PStatus.OPEN)).map (·.1)
  if symbols.isEmpty then (0, [])
  else if kill then (0, [])
  else (symbols.length, symbols)

/-! ## Tick monitoring (`TradeEngine._on_tick_unsafe`) -/

/-- Running-extreme update (`_on_tick_unsafe`, extremes block):
`pos.highest = max(pos.highest, ltp) if pos.highest else float(ltp)` for
BUY, mirrored with `min` on `lowest` for SELL (Python truthiness: the
`max`/`min` branch is taken exactly when the current extreme is nonzero). -/
def updExtremes (p : Position) (ltp : ℚ) : Position :=
  match p.side with
  | .BUY => { p with highest := if p.highest ≠ 0 then max p.highest ltp else ltp }
  | .SELL => { p with lowest := if p.lowest ≠ 0 then min p.lowest ltp else ltp }

/-- Trailing stop line (`_on_tick_unsafe`, `tsl_line` block): zero unless
`tsl_pct > 0` and the relevant extreme is positive. -/
def tslLineOf (p : Position) : ℚ :=
  if 0 < p.tsl_pct then
    match p.side with
    | .BUY => if 0 < p.highest then p.highest * (1 - p.tsl_pct / 100) else 0
    | .SELL => if 0 < p.lowest then p.lowest * (1 + p.tsl_pct / 100) else 0
  else 0

/-- Exit-reason selection (`_on_tick_unsafe`, `# exit reason` block):
an `if/elif/elif` chain checking TARGET, then STOP_LOSS, then TRAILING_SL,
each guarded by its level being positive. -/
def exitReasonOf (side : Side) (target sl tsl_line ltp : ℚ) : Option String :=
  match side with
  | .BUY =>
      if 0 < target ∧ target ≤ ltp then some "TARGET"
      else if 0 < sl ∧ ltp ≤ sl then some "STOP_LOSS"
      else if 0 < tsl_line ∧ ltp ≤ tsl_line then some "TRAILING_SL"
      else none
  | .SELL =>
      if 0 < target ∧ ltp ≤ target then some "TARGET"
      else if 0 < sl ∧ sl ≤ ltp then some "STOP_LOSS"
      else if 0 < tsl_line ∧ tsl_line ≤ ltp then some "TRAILING_SL"
      else none

/-- The per-position monitoring step of `_on_tick_unsafe` (after the
`ltp <= 0` guard): returns `(p, none)` unless the position is `OPEN`;
updates `ltp`/`pnl`; skips monitoring entirely for CNC; otherwise updates
the running extreme, computes the trailing line and evaluates the exit
predicate.  The result is the updated position together with the exit
reason produced on this tick (at most one, being an `Option`). -/
def onTickMonitor (p : Position) (ltp : ℚ) : Position × Option String :=
  if p.status ≠ .OPEN then (p, none)
  else
    let p1 := { p with
      ltp := ltp
      pnl := if 0 < p.entry_price then
               (match p.side with
                | .BUY => (ltp - p.entry_price) * p.qty
                | .SELL => (p.entry_price - ltp) * p.qty)
             else 0 }
    if p1.product = .CNC then (p1, none)
    else
      let p2 := updExtremes p1 ltp
      let line := tslLineOf p2
      (p2, exitReasonOf p2.side p2.target_price p2.sl_price line ltp)

/-- `_on_tick_unsafe` per-position behaviour including its
`if not symbol or ltp <= 0: return None` guard (the tick is dropped
entirely for non-positive prices, so the position is untouched). -/
def on_tick (p : Position) (ltp : ℚ) : Position × Option String :=
  if ltp ≤ 0 then (p, none) else onTickMonitor p ltp

/-! ## Spec-side exit predicate (for the refinement claim C5):
the ordered check list written from the spec's words. -/

/-- Modelled from the spec: the ordered exit checks
`TARGET → STOP_LOSS → TRAILING_SL`, each disabled when its level is `0`
(BUY: `ltp ≥ target`, `ltp ≤ stop`, `ltp ≤ trailing_line`; mirrored for
SELL). -/
def specExitChecks (side : Side) (target sl tsl_line ltp : ℚ) :
    List (String × Bool) :=
  [ ("TARGET", decide (0 < target) &&
        (match side with | .BUY => decide (target ≤ ltp) | .SELL => decide (ltp ≤ target))),
    ("STOP_LOSS", decide (0 < sl) &&
        (match side with | .BUY => decide (ltp ≤ sl) | .SELL => decide (sl ≤ ltp))),
    ("TRAILING_SL", decide (0 < tsl_line) &&
        (match side with | .BUY => decide (ltp ≤ tsl_line) | .SELL => decide (tsl_line ≤ ltp))) ]

/-- Modelled from the spec: first-match-wins evaluation of an ordered
check list. -/
def firstTriggered : List (String × Bool) → Option String
  | [] => none
  | (r, b) :: rest => if b then some r else firstTriggered rest

/-! ## Concrete instances used by individual witnesses/counterexamples -/

/-- Concrete OPEN MIS BUY position (target 110, stop 95, trailing 1%). -/
def posC5w : Position :=
  { side := .BUY, product := .MIS, qty := 1, entry_price := 100,
    target_price := 110, sl_price := 95, tsl_pct := 1,
    highest := 100, status := .OPEN }

/-- Concrete position whose status is `EXIT_CONDITIONS_MET`. -/
def posC6cx : Position :=
  { side := .BUY, product := .MIS, qty := 1, entry_price := 100,
    status := .EXIT_CONDITIONS_MET }

/-- Concrete OPEN MIS SELL position whose `lowest` is still at its
dataclass default `0` (reachable: fixed-qty entry with no tick data skips
the monitoring setup, leaving the extremes at `0.0`). -/
def posC7cx : Position :=
  { side := .SELL, product := .MIS, qty := 1, entry_price := 100,
    status := .OPEN }

/-- Concrete OPEN MIS BUY position with an initialized extreme. -/
def posC7buy : Position :=
  { side := .BUY, product := .MIS, qty := 1, entry_price := 100,
    highest := 100, status := .OPEN }

/-- Concrete OPEN MIS SELL position with an initialized extreme. -/
def posC7sell : Position :=
  { side := .SELL, product := .MIS, qty := 1, entry_price := 100,
    lowest := 100, status := .OPEN }

/-! ## String normalisation (`app/chartink_client.py` / `app/redis_store.py`)

Python strings are modelled as lists of Unicode code points; `lower`/
`upper` act on the ASCII letters (the inputs these normalisers are written
for), and `strip`/`\s` use the ASCII whitespace class. -/

/-- A Python string as its list of Unicode code points. -/
abbrev PyStr := List Nat

/-- Code points of a Lean string literal (readable concrete inputs). -/
def cp (s : String) : PyStr := s.data.map Char.toNat

/-- The `_ZERO_WIDTH` regex class: U+200B..U+200D and U+FEFF. -/
def isZW (c : Nat) : Bool :=
  c = 0x200B ∨ c = 0x200C ∨ c = 0x200D ∨ c = 0xFEFF

/-- Whitespace for `str.strip()` / the `\s+` regex
(space, tab, LF, VT, FF, CR). -/
def isWS (c : Nat) : Bool :=
  c = 32 ∨ c = 9 ∨ c = 10 ∨ c = 11 ∨ c = 12 ∨ c = 13

/-- `str.lower()` on one code point. -/
def lowerCp (c : Nat) : Nat := if 65 ≤ c ∧ c ≤ 90 then c + 32 else c

/-- `str.upper()` on one code point. -/
def upperCp (c : Nat) : Nat := if 97 ≤ c ∧ c ≤ 122 then c - 32 else c

/-- `_ZERO_WIDTH.sub("", s)`. -/
def removeZW (l : PyStr) : PyStr := l.filter (fun c => !isZW c)

/-- `str.strip()`: drop leading whitespace, then trailing whitespace. -/
def stripWS (l : PyStr) : PyStr :=
  (l.dropWhile (fun c => isWS c)).rdropWhile (fun c => isWS c)

/-- `_WS.sub(" ", s)` worker: replace each maximal whitespace run by one
space; the flag records whether the previous character was whitespace. -/
def collapseWSAux : Bool → PyStr → PyStr
  | _, [] => []
  | afterWS, c :: cs =>
    if isWS c then
      if afterWS then collapseWSAux true cs
      else 32 :: collapseWSAux true cs
    else c :: collapseWSAux false cs

/-- `_WS.sub(" ", s)`. -/
def collapseWS (l : PyStr) : PyStr := collapseWSAux false l

/-- `.replace("_", " ").replace("-", " ")` on one code point
(`'_'` = 95, `'-'` = 45, `' '` = 32). -/
def usDashToSpace (c : Nat) : Nat := if c = 95 ∨ c = 45 then 32 else c

/-- `norm_alert_name` (`app/redis_store.py`): remove zero-width
characters, strip, lowercase, turn `_`/`-` into spaces, collapse
whitespace runs into single spaces, strip. -/
def norm_alert_name (s : PyStr) : PyStr :=
  stripWS (collapseWS (((stripWS (removeZW s)).map lowerCp).map usDashToSpace))

/-- The character set kept by `normalize_symbol`: `A–Z 0–9 - &`
(`'-'` = 45, `'&'` = 38). -/
def allowedSym (c : Nat) : Bool :=
  (65 ≤ c ∧ c ≤ 90) ∨ (48 ≤ c ∧ c ≤ 57) ∨ c = 45 ∨ c = 38

/-- The part of `s.split(":", 1)[1]` after the first `':'` (= 58). -/
def afterColon : PyStr → PyStr
  | [] => []
  | c :: cs => if c = 58 then cs else afterColon cs

/-- `_strip_exchange_prefix`: `s.split(":", 1)[1].strip()` when the
string contains a `':'`, otherwise unchanged. -/
def dropExchangePrefix (l : PyStr) : PyStr :=
  if l.contains 58 then stripWS (afterColon l) else l

/-- `s.endswith(xyz)` for a three-character suffix. -/
def endsWith3 (l : PyStr) (a b c : Nat) : Bool := [a, b, c].isSuffixOf l

/-- `s[:-3]`. -/
def dropLast3 (l : PyStr) : PyStr := l.take (l.length - 3)

/-- `_strip_common_suffixes`: drop one trailing `".NS"` (46,78,83), then
one trailing `"-EQ"` (45,69,81). -/
def stripSuffixes (l : PyStr) : PyStr :=
  let l1 := if endsWith3 l 46 78 83 then dropLast3 l else l
  if endsWith3 l1 45 69 81 then dropLast3 l1 else l1

/-- `normalize_symbol` (`app/chartink_client.py`): remove zero-width
characters, strip, uppercase; drop the exchange prefix before the first
`':'`; strip-uppercase again; drop `".NS"`/`"-EQ"` suffixes; keep only
`A–Z 0–9 - &`; return `""` if the result is empty or `"NSE"`/`"BSE"`. -/
def normalize_symbol (s : PyStr) : PyStr :=
  let x1 := (stripWS (removeZW s)).map upperCp
  if x1 = [] then []
  else
    let x2 := (stripWS (dropExchangePrefix x1)).map upperCp
    if x2 = [] then []
    else
      let x3 := stripSuffixes ((stripWS x2).map upperCp)
      let x4 := (stripWS (x3.filter allowedSym)).map upperCp
      if x4 = [] ∨ x4 = [78, 83, 69] ∨ x4 = [66, 83, 69] then [] else x4

/-! ### Normal-form invariants used to prove idempotence -/

/-- Character-level invariant of `norm_alert_name` outputs: no zero-width
character, no underscore or dash, lowercase-fixed, and any whitespace is
a plain space. -/
def alertNormalChar (c : Nat) : Prop :=
  isZW c = false ∧ c ≠ 95 ∧ c ≠ 45 ∧ lowerCp c = c ∧
    (isWS c = true → c = 32)

/-- No whitespace at either end of the string. -/
def noEdgeWS (l : PyStr) : Prop :=
  (∀ c, l.head? = some c → isWS c = false) ∧
  (∀ c, l.getLast? = some c → isWS c = false)

/-- Full normal-form invariant of `norm_alert_name` outputs. -/
def alertNormal (l : PyStr) : Prop :=
  (∀ c ∈ l, alertNormalChar c) ∧ noEdgeWS l ∧
    l.Chain' (fun a b => ¬(isWS a = true ∧ isWS b = true))

end AlgoEngine

namespace AlgoEngine

/-! ## Shared helper lemmas -/

/-- The code's `if/elif` exit chain equals the spec's ordered
first-match-wins check list. -/
theorem exitReason_eq_firstTriggered (side : Side) (t s l ltp : ℚ) :
    exitReasonOf side t s l ltp = firstTriggered (specExitChecks side t s l ltp) := by
  cases side <;>
    simp [exitReasonOf, specExitChecks, firstTriggered]

/-! ## Claim theorems -/

/-- C1 counterexample: a broker failure during the exit path DOES engage
the kill switch (the kill key, `false` before the call, is set by
`_place_order`'s exception handler), refuting "the kill switch is NOT
engaged". -/
theorem C1_counterexample :
    (exit_position (.err "NETWORK") "TARGET"
      { pos := { side := .BUY, product := .MIS, qty := 1, entry_price := 100,
                 status := .OPEN },
        kill := false, openGuard := true, exitLock := false,
        exitInflight := true, exitSignaled := true }).kill = true := by
  rfl

/-- C1 (amended): for every position in an exit-eligible status and every
broker failure during the exit path (kill key clear and exit lock free, so
the critical section is entered), the position status becomes `ERROR` with
`exit_reason = "EXIT_ORDER_FAIL:<msg>"`, and the kill switch IS engaged
(set by `_place_order` on any order failure). -/
theorem C1_exit_order_fail (st : ExitSt) (e reason : String)
    (hst : st.pos.status = .OPEN ∨ st.pos.status = .EXITING ∨
      st.pos.status = .EXIT_CONDITIONS_MET)
    (hkill : st.kill = false) (hlock : st.exitLock = false) :
    (exit_position (.err e) reason st).pos.status = .ERROR ∧
    (exit_position (.err e) reason st).pos.exit_reason = "EXIT_ORDER_FAIL:" ++ e ∧
    (exit_position (.err e) reason st).kill = true := by
  have h1 : ¬(st.pos.status ≠ .OPEN ∧ st.pos.status ≠ .EXITING ∧
      st.pos.status ≠ .EXIT_CONDITIONS_MET) := by
    rcases hst with h | h | h <;> simp [h]
  simp [exit_position, h1, hkill, hlock]

/-- Witness for C1 at a concrete exit-eligible state. -/
theorem C1_exit_order_fail_witness :
    (exit_position (.err "NETWORK") "TARGET"
      { pos := { side := .BUY, product := .MIS, qty := 1, entry_price := 100,
                 status := .OPEN },
        kill := false, openGuard := true, exitLock := false,
        exitInflight := true, exitSignaled := true }).pos.status = .ERROR ∧
    (exit_position (.err "NETWORK") "TARGET"
      { pos := { side := .BUY, product := .MIS, qty := 1, entry_price := 100,
                 status := .OPEN },
        kill := false, openGuard := true, exitLock := false,
        exitInflight := true, exitSignaled := true }).pos.exit_reason =
      "EXIT_ORDER_FAIL:" ++ "NETWORK" ∧
    (exit_position (.err "NETWORK") "TARGET"
      { pos := { side := .BUY, product := .MIS, qty := 1, entry_price := 100,
                 status := .OPEN },
        kill := false, openGuard := true, exitLock := false,
        exitInflight := true, exitSignaled := true }).kill = true :=
  C1_exit_order_fail _ "NETWORK" "TARGET" (Or.inl rfl) rfl rfl

/-- C2 counterexample: on exit-order failure the open-guard IS cleared
(the `clear_open` call sits in a `finally` block), refuting "on
exit-order failure it is NOT cleared". -/
theorem C2_counterexample :
    (exit_position (.err "NETWORK") "STOP_LOSS"
      { pos := { side := .BUY, product := .MIS, qty := 1, entry_price := 100,
                 status := .OPEN },
        kill := false, openGuard := true, exitLock := false,
        exitInflight := true, exitSignaled := true }).openGuard = false := by
  rfl

/-- C2 (amended): the open-guard is cleared whenever the exit critical
section is entered, on success AND on failure (`clear_open` is in a
`finally`); it is left unchanged when the critical section is not entered
(e.g. the kill key blocks the exit lock). -/
theorem C2_open_guard (st : ExitSt) (br : BrokerResult) (reason : String) :
    ((st.pos.status = .OPEN ∨ st.pos.status = .EXITING ∨
        st.pos.status = .EXIT_CONDITIONS_MET) →
      st.kill = false → st.exitLock = false →
      (exit_position br reason st).openGuard = false) ∧
    (st.kill = true → (exit_position br reason st).openGuard = st.openGuard) := by
  constructor
  · intro hst hkill hlock
    have h1 : ¬(st.pos.status ≠ .OPEN ∧ st.pos.status ≠ .EXITING ∧
        st.pos.status ≠ .EXIT_CONDITIONS_MET) := by
      rcases hst with h | h | h <;> simp [h]
    cases br <;> simp [exit_position, h1, hkill, hlock]
  · intro hkill
    by_cases h1 : st.pos.status ≠ .OPEN ∧ st.pos.status ≠ .EXITING ∧
        st.pos.status ≠ .EXIT_CONDITIONS_MET <;>
      simp [exit_position, h1, hkill]

/-- Witness for C2 at a concrete state (success order, critical section
entered). -/
theorem C2_open_guard_witness :
    (exit_position (.ok "OID1") "TARGET"
      { pos := { side := .BUY, product := .MIS, qty := 1, entry_price := 100,
                 status := .EXITING },
        kill := false, openGuard := true, exitLock := false,
        exitInflight := true, exitSignaled := true }).openGuard = false :=
  (C2_open_guard _ (.ok "OID1") "TARGET").1 (Or.inr (Or.inl rfl)) rfl rfl

/-- C3: on broker failure at entry placement, the engine engages the kill
switch, returns `ERROR` with the failure message, leaves the open-guard
and the stored positions untouched, and keeps the per-alert daily counter
at its pre-placement incremented value (no refund). -/
theorem C3_entry_order_fail (st : EntrySt) (limit : Int) (pos : Position)
    (e : String) (hlim : 0 < limit) (hcur : (st.count : Int) < limit) :
    (entryPlaceAndStore (.err e) limit pos st).1.status = "ERROR" ∧
    (entryPlaceAndStore (.err e) limit pos st).1.reason = e ∧
    (entryPlaceAndStore (.err e) limit pos st).2.kill = true ∧
    (entryPlaceAndStore (.err e) limit pos st).2.openGuard = st.openGuard ∧
    (entryPlaceAndStore (.err e) limit pos st).2.storedPos = st.storedPos ∧
    (entryPlaceAndStore (.err e) limit pos st).2.count = st.count + 1 := by
  have hA : lua_trade_limit limit st.count = (true, st.count + 1) := by
    unfold lua_trade_limit
    rw [if_neg (by omega), if_neg (by omega)]
  simp [entryPlaceAndStore, hA]

/-- Witness for C3 at a concrete entry state under its daily limit. -/
theorem C3_entry_order_fail_witness :
    (entryPlaceAndStore (.err "MARGIN") 3
      { side := .BUY, product := .MIS, qty := 5, entry_price := 100 }
      { kill := false, openGuard := false, storedPos := none,
        count := 1 }).1.status = "ERROR" ∧
    (entryPlaceAndStore (.err "MARGIN") 3
      { side := .BUY, product := .MIS, qty := 5, entry_price := 100 }
      { kill := false, openGuard := false, storedPos := none,
        count := 1 }).1.reason = "MARGIN" ∧
    (entryPlaceAndStore (.err "MARGIN") 3
      { side := .BUY, product := .MIS, qty := 5, entry_price := 100 }
      { kill := false, openGuard := false, storedPos := none,
        count := 1 }).2.kill = true ∧
    (entryPlaceAndStore (.err "MARGIN") 3
      { side := .BUY, product := .MIS, qty := 5, entry_price := 100 }
      { kill := false, openGuard := false, storedPos := none,
        count := 1 }).2.openGuard =
      ({ kill := false, openGuard := false, storedPos := none,
         count := 1 } : EntrySt).openGuard ∧
    (entryPlaceAndStore (.err "MARGIN") 3
      { side := .BUY, product := .MIS, qty := 5, entry_price := 100 }
      { kill := false, openGuard := false, storedPos := none,
        count := 1 }).2.storedPos =
      ({ kill := false, openGuard := false, storedPos := none,
         count := 1 } : EntrySt).storedPos ∧
    (entryPlaceAndStore (.err "MARGIN") 3
      { side := .BUY, product := .MIS, qty := 5, entry_price := 100 }
      { kill := false, openGuard := false, storedPos := none,
        count := 1 }).2.count = 1 + 1 :=
  C3_entry_order_fail _ 3 _ "MARGIN" (by norm_num) (by norm_num)

/-- C4 counterexample: the entry path maps lock result `-2` to reason
`"KILL"`, not `"KILL_SWITCH"` as the claim states. -/
theorem C4_counterexample : entryLockFailReason (-2) ≠ "KILL_SWITCH" := by
  decide

/-- C4 (amended): `acquire_lock` checks the kill key first and returns
`-2` when it exists, `0` when the lock key already exists, and `1` after
setting the lock key with the given TTL; the entry path maps `-2` to
reason `"KILL"` (not `"KILL_SWITCH"`) and any other failed result,
including `0`, to `"ENTRY_LOCK_BUSY"`. -/
theorem C4_lock_semantics (killKey : Bool) (lockKey : Option Nat) (ttl : Nat) :
    (killKey = true → lua_lock killKey lockKey ttl = (-2, lockKey)) ∧
    (killKey = false → lockKey.isSome = true →
      lua_lock killKey lockKey ttl = (0, lockKey)) ∧
    (killKey = false → lockKey = none →
      lua_lock killKey lockKey ttl = (1, some ttl)) ∧
    entryLockFailReason (-2) = "KILL" ∧
    entryLockFailReason 0 = "ENTRY_LOCK_BUSY" := by
  refine ⟨fun h => by simp [lua_lock, h],
    fun h h2 => by simp [lua_lock, h, h2],
    fun h h2 => by simp [lua_lock, h, h2], rfl, rfl⟩

/-- Witness for C4: the three lock outcomes at concrete key states. -/
theorem C4_lock_semantics_witness :
    lua_lock true (some 500) 2000 = (-2, some 500) ∧
    lua_lock false (some 500) 2000 = (0, some 500) ∧
    lua_lock false none 2000 = (1, some 2000) :=
  ⟨(C4_lock_semantics true (some 500) 2000).1 rfl,
   (C4_lock_semantics false (some 500) 2000).2.1 rfl rfl,
   (C4_lock_semantics false none 2000).2.2.1 rfl rfl⟩

/-- C5: for every OPEN intraday (MIS) position and every tick with a
positive price, the tick handler's exit reason equals first-match-wins
evaluation of the ordered spec checks `TARGET → STOP_LOSS → TRAILING_SL`
(BUY: `ltp ≥ target`, `ltp ≤ stop`, `ltp ≤ trailing line`; mirrored for
SELL), a zero level disables its individual check, and at most one exit
reason is produced per tick (the result is an `Option`). -/
theorem C5_exit_predicate (p : Position) (ltp : ℚ)
    (hopen : p.status = .OPEN) (hmis : p.product = .MIS) (hltp : 0 < ltp) :
    (on_tick p ltp).2 =
      firstTriggered (specExitChecks p.side p.target_price p.sl_price
        (tslLineOf (on_tick p ltp).1) ltp) ∧
    (p.target_price = 0 → (on_tick p ltp).2 ≠ some "TARGET") ∧
    (p.sl_price = 0 → (on_tick p ltp).2 ≠ some "STOP_LOSS") ∧
    (tslLineOf (on_tick p ltp).1 = 0 → (on_tick p ltp).2 ≠ some "TRAILING_SL") := by
  have hnle : ¬ ltp ≤ 0 := not_le.mpr hltp
  have hbody : (on_tick p ltp).1 = updExtremes { p with
      ltp := ltp
      pnl := if 0 < p.entry_price then
               (match p.side with
                | .BUY => (ltp - p.entry_price) * p.qty
                | .SELL => (p.entry_price - ltp) * p.qty)
             else 0 } ltp ∧
      (on_tick p ltp).2 = exitReasonOf p.side p.target_price p.sl_price
        (tslLineOf (on_tick p ltp).1) ltp := by
    cases hs : p.side <;>
      simp [on_tick, onTickMonitor, hopen, hmis, hnle, updExtremes, hs]
  refine ⟨?_, ?_, ?_, ?_⟩
  · rw [hbody.2, exitReason_eq_firstTriggered]
  · intro h0
    rw [hbody.2]
    cases hs : p.side <;>
      simp [exitReasonOf, hs, h0] <;> split_ifs <;> simp
  · intro h0
    rw [hbody.2]
    cases hs : p.side <;>
      simp [exitReasonOf, hs, h0] <;> split_ifs <;> simp
  · intro h0
    rw [hbody.2]
    cases hs : p.side <;>
      simp [exitReasonOf, hs, h0] <;> split_ifs <;> simp

end AlgoEngine

namespace AlgoEngine

/-- Witness for C5: a concrete OPEN MIS BUY position whose tick at 111
meets the target first. -/
theorem C5_exit_predicate_witness :
    (on_tick posC5w 111).2 =
      firstTriggered (specExitChecks posC5w.side posC5w.target_price
        posC5w.sl_price (tslLineOf (on_tick posC5w 111).1) 111) ∧
    (posC5w.target_price = 0 → (on_tick posC5w 111).2 ≠ some "TARGET") ∧
    (posC5w.sl_price = 0 → (on_tick posC5w 111).2 ≠ some "STOP_LOSS") ∧
    (tslLineOf (on_tick posC5w 111).1 = 0 →
      (on_tick posC5w 111).2 ≠ some "TRAILING_SL") :=
  C5_exit_predicate posC5w 111 rfl rfl (by norm_num)

/-- C6 counterexample: a stored position with status `EXIT_CONDITIONS_MET`
is NOT rejected by the in-memory duplicate guard (the check only covers
`OPEN` and `EXITING`). -/
theorem C6_counterexample :
    tryEnterMemGuard (some posC6cx) = none := by
  rfl

/-- C6 (amended): the in-memory duplicate guard rejects with
`SKIPPED/ALREADY_OPEN` exactly when the stored position's status is `OPEN`
or `EXITING`; `EXIT_CONDITIONS_MET` is not covered by this check. -/
theorem C6_mem_dup_guard (p : Position) :
    tryEnterMemGuard (some p) = some ⟨"SKIPPED", "ALREADY_OPEN"⟩ ↔
      (p.status = .OPEN ∨ p.status = .EXITING) := by
  cases hp : p.status <;> simp [tryEnterMemGuard, memDupActive, hp]

/-- C7 counterexample: a reachable OPEN MIS SELL position whose `lowest`
is still at its dataclass default `0` (entered in fixed-qty mode with no
tick data) has its running extreme jump from `0` to the tick price `100`,
so the SELL extreme is not non-increasing across all on-tick calls. -/
theorem C7_counterexample :
    ¬ ((on_tick posC7cx 100).1.lowest ≤ posC7cx.lowest) := by
  decide

/-- C7 (amended): on every tick, a BUY position's running extreme
(`highest`) never decreases, and a SELL position's running extreme
(`lowest`) never increases once it is initialized (positive); an
uninitialized (zero) extreme is set to the tick price instead. -/
theorem C7_extreme_monotone (p : Position) (ltp : ℚ) :
    (p.side = .BUY → p.highest ≤ (on_tick p ltp).1.highest) ∧
    (p.side = .SELL → 0 < p.lowest → (on_tick p ltp).1.lowest ≤ p.lowest) := by
  constructor
  · intro hs
    by_cases hltp : ltp ≤ 0
    · simp [on_tick, hltp]
    · by_cases hopen : p.status = .OPEN
      · by_cases hcnc : p.product = .CNC
        · simp [on_tick, onTickMonitor, hltp, hopen, hcnc]
        · have hh : p.highest ≤
              (if p.highest = 0 then ltp else max p.highest ltp) := by
            split_ifs with h
            · rw [h]
              linarith [not_le.mp hltp]
            · exact le_max_left _ _
          simp [on_tick, onTickMonitor, hltp, hopen, hcnc, updExtremes, hs]
          exact hh
      · simp [on_tick, onTickMonitor, hltp, hopen]
  · intro hs hlow
    by_cases hltp : ltp ≤ 0
    · simp [on_tick, hltp]
    · by_cases hopen : p.status = .OPEN
      · by_cases hcnc : p.product = .CNC
        · simp [on_tick, onTickMonitor, hltp, hopen, hcnc]
        · have hh : (if p.lowest = 0 then ltp else min p.lowest ltp) ≤
              p.lowest := by
            rw [if_neg (ne_of_gt hlow)]
            exact min_le_left _ _
          simp [on_tick, onTickMonitor, hltp, hopen, hcnc, updExtremes, hs]
          exact hh
      · simp [on_tick, onTickMonitor, hltp, hopen]

/-- Witness for C7 at concrete BUY and SELL positions. -/
theorem C7_extreme_monotone_witness :
    posC7buy.highest ≤ (on_tick posC7buy 105).1.highest ∧
    (on_tick posC7sell 95).1.lowest ≤ posC7sell.lowest :=
  ⟨(C7_extreme_monotone posC7buy 105).1 rfl,
   (C7_extreme_monotone posC7sell 95).2 rfl (by norm_num [posC7sell])⟩

/-- C9: the quantity computed at the entry quantity step is always at
least `1` (fixed-qty mode clamps with `max(1, ·)`; capital mode receives
a positive price because the call site substitutes `1.0` for non-positive
prices, and also clamps with `max(1, ·)`), so the `BAD_QTY` rejection
branch never fires. -/
theorem C9_qty_at_least_one (cfg : AlertConfig) (ltp : ℚ) :
    1 ≤ entryQty cfg ltp ∧ entryQtyReject cfg ltp = none := by
  have h1 : 1 ≤ entryQty cfg ltp := by
    unfold entryQty calc_qty
    cases cfg.qty_mode with
    | QTY => exact le_max_left _ _
    | CAPITAL =>
        have hpos : ¬ ((if 0 < ltp then ltp else (1 : ℚ)) ≤ 0) := by
          split_ifs with h <;> simp <;> linarith
        simp only [hpos, if_false]
        exact le_max_left _ _
  refine ⟨h1, ?_⟩
  unfold entryQtyReject
  rw [if_neg (by omega)]

/-- C10: whenever the kill switch is set for the user, bulk square-off
spawns no exit tasks and returns `0`, even when OPEN positions exist in
memory; since no `_exit_position` task is spawned, no position status can
change. -/
theorem C10_exit_all_kill (positions : List (String × PStatus)) :
    exit_all_open_positions positions true = (0, []) := by
  simp [exit_all_open_positions]

end AlgoEngine

namespace AlgoEngine

/-! ## Normalisation helper lemmas -/

/-- Mapping a function that fixes every element is the identity. -/
theorem map_eq_self_of_fix {l : PyStr} {f : Nat → Nat}
    (h : ∀ c ∈ l, f c = c) : l.map f = l := by
  induction l with
  | nil => rfl
  | cons c cs ih =>
      simp only [List.map_cons, h c (List.mem_cons_self c cs)]
      rw [ih fun d hd => h d (List.mem_cons_of_mem c hd)]

/-- The head of a `dropWhile` result does not satisfy the predicate. -/
theorem head?_dropWhile_false {p : Nat → Bool} {l : PyStr} {c : Nat}
    (h : (l.dropWhile p).head? = some c) : p c = false := by
  induction l with
  | nil => simp [List.dropWhile] at h
  | cons d ds ih =>
      rw [List.dropWhile_cons] at h
      by_cases hd : p d
      · exact ih (by simpa [hd] using h)
      · rw [if_neg hd] at h
        rw [List.head?_cons, Option.some.injEq] at h
        rw [← h, Bool.eq_false_iff]
        exact hd

/-- The last element of a nonempty `dropWhile` result is the last element
of the original list. -/
theorem getLast?_dropWhile {p : Nat → Bool} {l : PyStr}
    (h : l.dropWhile p ≠ []) : (l.dropWhile p).getLast? = l.getLast? := by
  induction l with
  | nil => simp [List.dropWhile] at h
  | cons d ds ih =>
      rw [List.dropWhile_cons]
      by_cases hd : p d
      · rw [List.dropWhile_cons, if_pos hd] at h
        have hds : ds ≠ [] := by
          intro hnil
          rw [hnil] at h
          simp [List.dropWhile] at h
        rw [if_pos hd, ih h]
        cases ds with
        | nil => exact absurd rfl hds
        | cons e es => rw [List.getLast?_cons_cons]
      · rw [if_neg hd]

/-- `stripWS` output is an infix of the input. -/
theorem stripWS_isSublistPart (l : PyStr) : stripWS l <:+: l := by
  unfold stripWS
  exact ((List.rdropWhile_prefix _ _).isInfix).trans
    ((List.dropWhile_suffix _).isInfix)

/-- Membership in `stripWS` output implies membership in the input. -/
theorem mem_stripWS {l : PyStr} {c : Nat} (h : c ∈ stripWS l) : c ∈ l :=
  (stripWS_isSublistPart l).sublist.subset h

/-- The head of a `stripWS` result is not whitespace. -/
theorem head?_stripWS {l : PyStr} {c : Nat}
    (h : (stripWS l).head? = some c) : isWS c = false := by
  unfold stripWS at h
  obtain ⟨t, ht⟩ := List.rdropWhile_prefix (fun c => isWS c)
    (l.dropWhile fun c => isWS c)
  apply head?_dropWhile_false (p := fun c => isWS c) (l := l)
  rw [← ht]
  cases hx : ((l.dropWhile fun c => isWS c).rdropWhile fun c => isWS c) with
  | nil => rw [hx] at h; simp at h
  | cons d ds =>
      rw [hx] at h
      simp only [List.head?_cons, Option.some.injEq] at h
      simp [← h]

/-- The last element of a `stripWS` result is not whitespace. -/
theorem getLast?_stripWS {l : PyStr} {c : Nat}
    (h : (stripWS l).getLast? = some c) : isWS c = false := by
  unfold stripWS at h
  have hne : ((l.dropWhile fun c => isWS c).rdropWhile fun c => isWS c) ≠ [] := by
    intro hnil
    rw [hnil] at h
    simp at h
  have := List.rdropWhile_last_not (fun c => isWS c)
    (l.dropWhile fun c => isWS c) hne
  rw [List.getLast?_eq_getLast _ hne, Option.some.injEq] at h
  rw [← h, Bool.eq_false_iff]
  exact this

/-- `stripWS` leaves a string with no whitespace at either end unchanged. -/
theorem stripWS_eq_self {l : PyStr} (h : noEdgeWS l) : stripWS l = l := by
  obtain ⟨h1, h2⟩ := h
  unfold stripWS
  have hd : l.dropWhile (fun c => isWS c) = l := by
    cases l with
    | nil => rfl
    | cons c cs =>
        rw [List.dropWhile_cons, if_neg]
        simp [h1 c rfl]
  rw [hd]
  rw [List.rdropWhile_eq_self_iff]
  intro hl
  have := h2 (l.getLast hl) (List.getLast?_eq_getLast _ hl)
  simp [this]

end AlgoEngine

namespace AlgoEngine

/-- Elements of a collapsed string are either the inserted space or
non-whitespace characters of the input. -/
theorem mem_collapseWSAux {c : Nat} :
    ∀ (b : Bool) (l : PyStr), c ∈ collapseWSAux b l →
      c = 32 ∨ (c ∈ l ∧ isWS c = false) := by
  intro b l
  induction l generalizing b with
  | nil => intro h; simp [collapseWSAux] at h
  | cons d ds ih =>
      intro h
      rw [collapseWSAux] at h
      by_cases hd : isWS d
      · rw [if_pos hd] at h
        by_cases hb : b
        · rcases ih true (by simpa [hb] using h) with h1 | ⟨h1, h2⟩
          · exact Or.inl h1
          · exact Or.inr ⟨List.mem_cons_of_mem d h1, h2⟩
        · rw [Bool.not_eq_true] at hb
          subst hb
          rw [if_neg Bool.false_ne_true, List.mem_cons] at h
          rcases h with h1 | h1
          · exact Or.inl h1
          · rcases ih true h1 with h2 | ⟨h2, h3⟩
            · exact Or.inl h2
            · exact Or.inr ⟨List.mem_cons_of_mem d h2, h3⟩
      · rw [if_neg hd] at h
        rcases List.mem_cons.mp h with h1 | h1
        · subst h1
          exact Or.inr ⟨List.mem_cons_self c ds, Bool.eq_false_iff.mpr hd⟩
        · rcases ih false h1 with h2 | ⟨h2, h3⟩
          · exact Or.inl h2
          · exact Or.inr ⟨List.mem_cons_of_mem d h2, h3⟩

/-- With the flag set, a collapsed string starts with a non-whitespace
character. -/
theorem head?_collapseWSAux_true {c : Nat} :
    ∀ l : PyStr, (collapseWSAux true l).head? = some c → isWS c = false := by
  intro l
  induction l with
  | nil => intro h; simp [collapseWSAux] at h
  | cons d ds ih =>
      intro h
      rw [collapseWSAux] at h
      by_cases hd : isWS d
      · rw [if_pos hd, if_pos rfl] at h
        exact ih h
      · rw [if_neg hd, List.head?_cons, Option.some.injEq] at h
        rw [← h, Bool.eq_false_iff]
        exact hd

/-- Collapsed strings never contain two adjacent whitespace characters. -/
theorem chain'_collapseWSAux :
    ∀ (b : Bool) (l : PyStr),
      (collapseWSAux b l).Chain' (fun a b => ¬(isWS a = true ∧ isWS b = true)) := by
  intro b l
  induction l generalizing b with
  | nil => simp [collapseWSAux]
  | cons d ds ih =>
      rw [collapseWSAux]
      by_cases hd : isWS d
      · rw [if_pos hd]
        by_cases hb : b
        · simpa [hb] using ih true
        · rw [Bool.not_eq_true] at hb
          subst hb
          rw [if_neg Bool.false_ne_true]
          rw [List.chain'_cons']
          refine ⟨fun y hy => ?_, ih true⟩
          have := head?_collapseWSAux_true (c := y) ds
          intro ⟨_, h2⟩
          rw [this (by simpa using hy)] at h2
          exact Bool.false_ne_true h2
      · rw [if_neg hd]
        rw [List.chain'_cons']
        refine ⟨fun y hy => ?_, ih false⟩
        intro ⟨h1, _⟩
        exact hd h1

/-- A string in spacing normal form (all whitespace is a single internal
space) is unchanged by collapsing; with the flag set this additionally
needs a non-whitespace head. -/
theorem collapseWSAux_eq_self :
    ∀ l : PyStr, (∀ c ∈ l, isWS c = true → c = 32) →
      l.Chain' (fun a b => ¬(isWS a = true ∧ isWS b = true)) →
      (collapseWSAux false l = l ∧
        ((∀ c, l.head? = some c → isWS c = false) → collapseWSAux true l = l)) := by
  intro l
  induction l with
  | nil => intro _ _; exact ⟨rfl, fun _ => rfl⟩
  | cons d ds ih =>
      intro hws hch
      rw [List.chain'_cons'] at hch
      obtain ⟨hch1, hch2⟩ := hch
      have ihds := ih (fun c hc => hws c (List.mem_cons_of_mem d hc)) hch2
      constructor
      · rw [collapseWSAux]
        by_cases hd : isWS d
        · have hd32 : d = 32 := hws d (List.mem_cons_self d ds) hd
          rw [if_pos hd, if_neg (by simp), hd32]
          have hhead : ∀ c, ds.head? = some c → isWS c = false := by
            intro c hc
            have h2 := hch1 c (Option.mem_def.mpr hc)
            by_contra hcontra
            exact h2 ⟨hd, by simpa using hcontra⟩
          rw [ihds.2 hhead]
        · rw [if_neg hd, ihds.1]
      · intro hhd
        rw [collapseWSAux]
        have hd : ¬ isWS d := by simp [hhd d rfl]
        rw [if_neg hd, ihds.1]

end AlgoEngine

namespace AlgoEngine

/-- Character-level invariant of the alert normaliser body: lowering a
non-zero-width code point and mapping `_`/`-` to space yields a character
that is zero-width-free, dash/underscore-free, lowercase-fixed, and a
plain space if whitespace at all. -/
theorem alertNormalChar_of {c0 : Nat} (hzw : isZW c0 = false)
    (hws : isWS (usDashToSpace (lowerCp c0)) = false) :
    alertNormalChar (usDashToSpace (lowerCp c0)) := by
  have hz : ¬(c0 = 0x200B ∨ c0 = 0x200C ∨ c0 = 0x200D ∨ c0 = 0xFEFF) := by
    simpa [isZW] using hzw
  refine ⟨?_, ?_, ?_, ?_, fun h => absurd (hws ▸ h) Bool.false_ne_true⟩
  · simp only [isZW, decide_eq_false_iff_not]
    unfold usDashToSpace lowerCp
    split_ifs <;> omega
  · unfold usDashToSpace lowerCp
    split_ifs <;> omega
  · unfold usDashToSpace lowerCp
    split_ifs <;> omega
  · unfold usDashToSpace lowerCp
    split_ifs <;> omega

/-- `alertNormalChar` holds for the space character. -/
theorem alertNormalChar_space : alertNormalChar 32 := by
  unfold alertNormalChar isZW isWS lowerCp
  refine ⟨by decide, by decide, by decide, by decide, fun _ => rfl⟩

/-- The alert normaliser's output satisfies the normal-form invariant. -/
theorem alertNormal_norm_alert_name (s : PyStr) :
    alertNormal (norm_alert_name s) := by
  unfold norm_alert_name
  refine ⟨?_, ⟨fun c hc => head?_stripWS hc, fun c hc => getLast?_stripWS hc⟩, ?_⟩
  · intro c hc
    have hc2 := mem_stripWS hc
    rcases mem_collapseWSAux false _ hc2 with h32 | ⟨hmem, hnws⟩
    · rw [h32]
      exact alertNormalChar_space
    · rw [List.mem_map] at hmem
      obtain ⟨c1, hc1, hc1e⟩ := hmem
      rw [List.mem_map] at hc1
      obtain ⟨c0, hc0, hc0e⟩ := hc1
      have hzw : isZW c0 = false := by
        have := mem_stripWS hc0
        unfold removeZW at this
        rw [List.mem_filter] at this
        simpa using this.2
      rw [← hc1e, ← hc0e]
      rw [← hc1e, ← hc0e] at hnws
      exact alertNormalChar_of hzw hnws
  · exact List.Chain'.infix (chain'_collapseWSAux false _) (stripWS_isSublistPart _)

/-- The alert normaliser is the identity on normal forms. -/
theorem norm_alert_name_eq_self {l : PyStr} (h : alertNormal l) :
    norm_alert_name l = l := by
  obtain ⟨hchar, hedge, hchain⟩ := h
  have h1 : removeZW l = l :=
    List.filter_eq_self.mpr (fun c hc => by simp [(hchar c hc).1])
  have h2 : stripWS l = l := stripWS_eq_self hedge
  have h3 : l.map lowerCp = l :=
    map_eq_self_of_fix (fun c hc => (hchar c hc).2.2.2.1)
  have h4 : l.map usDashToSpace = l := by
    refine map_eq_self_of_fix (fun c hc => ?_)
    unfold usDashToSpace
    rw [if_neg]
    exact fun hor => hor.elim (hchar c hc).2.1 (hchar c hc).2.2.1
  have h5 : collapseWS l = l :=
    (collapseWSAux_eq_self l (fun c hc => (hchar c hc).2.2.2.2) hchain).1
  unfold norm_alert_name
  rw [h1, h2, h3, h4, h5, h2]

end AlgoEngine

namespace AlgoEngine

/-- Membership from `getLast?`. -/
theorem mem_of_getLast? {l : PyStr} {c : Nat} (h : l.getLast? = some c) :
    c ∈ l := by
  obtain ⟨hne, heq⟩ := List.mem_getLast?_eq_getLast (x := c) (l := l) h
  rw [heq]
  exact List.getLast_mem hne

/-- `stripWS` is the identity on whitespace-free strings. -/
theorem stripWS_eq_self_of_no_ws {l : PyStr}
    (h : ∀ c ∈ l, isWS c = false) : stripWS l = l :=
  stripWS_eq_self ⟨fun c hc => h c (List.mem_of_mem_head? hc),
    fun c hc => h c (mem_of_getLast? hc)⟩

/-- Facts about the retained symbol characters (`A–Z 0–9 - &`): they are
uppercase-fixed, not zero-width, not whitespace, not `':'` (58), and not
`'.'` (46). -/
theorem allowedSym_facts {c : Nat} (h : allowedSym c = true) :
    upperCp c = c ∧ isZW c = false ∧ isWS c = false ∧ c ≠ 58 ∧ c ≠ 46 := by
  simp only [allowedSym, decide_eq_true_eq] at h
  refine ⟨?_, ?_, ?_, ?_, ?_⟩
  · unfold upperCp
    split_ifs <;> omega
  · simp only [isZW, decide_eq_false_iff_not]
    omega
  · simp only [isWS, decide_eq_false_iff_not]
    omega
  · omega
  · omega

/-- The symbol normaliser returns either the empty string or a nonempty
string of retained characters different from `"NSE"`/`"BSE"`. -/
theorem normalize_symbol_chars (s : PyStr) :
    normalize_symbol s = [] ∨
      ((∀ c ∈ normalize_symbol s, allowedSym c = true) ∧
        normalize_symbol s ≠ [] ∧ normalize_symbol s ≠ [78, 83, 69] ∧
        normalize_symbol s ≠ [66, 83, 69]) := by
  simp only [normalize_symbol]
  split_ifs with h1 h2 h3
  · exact Or.inl rfl
  · exact Or.inl rfl
  · exact Or.inl rfl
  · push_neg at h3
    refine Or.inr ⟨?_, h3.1, h3.2.1, h3.2.2⟩
    intro c hc
    rw [List.mem_map] at hc
    obtain ⟨c1, hc1, hc1e⟩ := hc
    have hc2 := mem_stripWS hc1
    rw [List.mem_filter] at hc2
    rw [← hc1e, (allowedSym_facts hc2.2).1]
    exact hc2.2

/-- The symbol normaliser is the identity on its nonempty outputs that do
not end in `"-EQ"`. -/
theorem normalize_symbol_eq_self {l : PyStr}
    (hall : ∀ c ∈ l, allowedSym c = true) (hne : l ≠ [])
    (hnse : l ≠ [78, 83, 69]) (hbse : l ≠ [66, 83, 69])
    (heq : endsWith3 l 45 69 81 = false) :
    normalize_symbol l = l := by
  have hid1 : removeZW l = l :=
    List.filter_eq_self.mpr (fun c hc => by
      simp [(allowedSym_facts (hall c hc)).2.1])
  have hid2 : stripWS l = l :=
    stripWS_eq_self_of_no_ws (fun c hc => (allowedSym_facts (hall c hc)).2.2.1)
  have hid3 : l.map upperCp = l :=
    map_eq_self_of_fix (fun c hc => (allowedSym_facts (hall c hc)).1)
  have hid4 : dropExchangePrefix l = l := by
    unfold dropExchangePrefix
    rw [if_neg]
    intro hcontains
    have h58 : 58 ∈ l := by simpa [List.contains] using hcontains
    exact (allowedSym_facts (hall 58 h58)).2.2.2.1 rfl
  have hid5 : endsWith3 l 46 78 83 = false := by
    by_contra hcontra
    rw [Bool.not_eq_false] at hcontra
    have hsuf : [46, 78, 83] <:+ l := by
      simpa [endsWith3, List.isSuffixOf_iff_suffix] using hcontra
    have h46 : 46 ∈ l := hsuf.sublist.subset (List.mem_cons_self _ _)
    exact (allowedSym_facts (hall 46 h46)).2.2.2.2 rfl
  have hid6 : stripSuffixes l = l := by
    simp [stripSuffixes, hid5, heq]
  have hid7 : l.filter allowedSym = l := List.filter_eq_self.mpr hall
  unfold normalize_symbol
  simp only [hid1, hid2, hid3, hid4, hid6, hid7]
  simp [hne, hnse, hbse]

end AlgoEngine

namespace AlgoEngine

/-- C8 counterexample: `normalize_symbol` is not idempotent — on input
`"X-EQ-EQ"` one application yields `"X-EQ"` (code points 88,45,69,81),
whose re-normalisation strips the `-EQ` suffix again, yielding `"X"`. -/
theorem C8_counterexample :
    normalize_symbol (normalize_symbol (cp "X-EQ-EQ")) ≠
      normalize_symbol (cp "X-EQ-EQ") := by
  decide

/-- C8 (amended): `norm_alert_name` is idempotent on every input, and
`normalize_symbol` is idempotent on every input whose normalised form
does not end in `"-EQ"` (code points 45,69,81); a normalised form ending
in `"-EQ"` loses that suffix on a second application. -/
theorem C8_normalization_idempotent :
    (∀ s : PyStr, norm_alert_name (norm_alert_name s) = norm_alert_name s) ∧
    (∀ s : PyStr, endsWith3 (normalize_symbol s) 45 69 81 = false →
      normalize_symbol (normalize_symbol s) = normalize_symbol s) := by
  constructor
  · intro s
    exact norm_alert_name_eq_self (alertNormal_norm_alert_name s)
  · intro s hsuf
    rcases normalize_symbol_chars s with h | ⟨h1, h2, h3, h4⟩
    · rw [h]
      rfl
    · exact normalize_symbol_eq_self h1 h2 h3 h4 hsuf

/-- Witness for C8: concrete alert name and symbol inputs. -/
theorem C8_normalization_idempotent_witness :
    norm_alert_name (norm_alert_name (cp "Morning_Longs")) =
      norm_alert_name (cp "Morning_Longs") ∧
    endsWith3 (normalize_symbol (cp "NSE:SBIN-EQ")) 45 69 81 = false ∧
    normalize_symbol (normalize_symbol (cp "NSE:SBIN-EQ")) =
      normalize_symbol (cp "NSE:SBIN-EQ") :=
  ⟨C8_normalization_idempotent.1 _, by decide,
    C8_normalization_idempotent.2 _ (by decide)⟩

end AlgoEngine
